import Mathlib

set_option maxRecDepth 20000
set_option maxHeartbeats 1000000

/-
Shallow embedding of the db-mcp core (dialect / query-builder layer and the
SQL validator) and proofs about it.

Conventions used throughout:
* Go strings are modelled as Lean `String` / `List Char`; all byte-indexed Go
  operations are used by the program on ASCII text only, where byte positions
  and character positions coincide.
* `strings.ToUpper` / `strings.TrimSpace` are modelled on the ASCII fragment
  (the program feeds them SQL text; non-ASCII code points are untouched by the
  validator's keyword logic in both the model and the original).
* The handful of regular expressions in the source (`struct.go`) are simple
  scanners; each is translated to an explicit scanner that implements the
  same leftmost, non-overlapping replacement/counting semantics of Go's
  regexp package on the pattern in question.
* Fallible steps return `Option VError` (`none` = pass), mirroring Go's
  `error` returns in `query_validation.go`.
-/

namespace DbMcp

/-! ## Character classes

`isReSpace` is RE2's `\s` = `[\t\n\f\r ]` (used by `reMultipleSpaces` and
`reParensAndCommas`); `isGoSpace` is `unicode.IsSpace` restricted to ASCII
(used by `strings.TrimSpace`); `isWordChar` is RE2's `\w` = `[0-9A-Za-z_]`
(used by the `\b` word boundaries in `containsKeyword`). -/

def isReSpace (c : Char) : Bool :=
  c = ' ' || c = '\t' || c = '\n' || c = Char.ofNat 12 || c = '\r'

def isGoSpace (c : Char) : Bool :=
  c = ' ' || c = '\t' || c = '\n' || c = Char.ofNat 11 || c = Char.ofNat 12 || c = '\r'

def isWordChar (c : Char) : Bool :=
  ('0' ≤ c && c ≤ '9') || ('A' ≤ c && c ≤ 'Z') || ('a' ≤ c && c ≤ 'z') || c = '_'

/-- Model of Go `strings.ToUpper` on ASCII text. -/
def asciiUpper (c : Char) : Char :=
  if 'a' ≤ c && c ≤ 'z' then Char.ofNat (c.toNat - 32) else c

/-- Model of Go `strings.TrimSpace` (ASCII fragment). -/
def trimSpace (l : List Char) : List Char :=
  ((l.dropWhile isGoSpace).reverse.dropWhile isGoSpace).reverse

/-! ## Substring search and counting (Go `strings` package). -/

/-- Model of Go `strings.Contains`: `pat` occurs as a contiguous run in `l`. -/
def containsSubAux (pat : List Char) : List Char → Bool
  | [] => pat.isEmpty
  | c :: rest => pat.isPrefixOf (c :: rest) || containsSubAux pat rest

def containsSub (l pat : List Char) : Bool :=
  containsSubAux pat l

/-- Model of Go `strings.Count` for a non-empty pattern: number of
non-overlapping instances, scanning left to right.  `fuel` is consumed one
unit per examined position, so `fuel = l.length` always suffices. -/
def countSubAux (pat : List Char) : Nat → List Char → Nat
  | 0, _ => 0
  | _ + 1, [] => 0
  | fuel + 1, c :: rest =>
    if pat.isPrefixOf (c :: rest) then 1 + countSubAux pat fuel ((c :: rest).drop pat.length)
    else countSubAux pat fuel rest

def countSub (l pat : List Char) : Nat :=
  countSubAux pat l.length l

/-- Occurrences of a single character (used for the parenthesis counts). -/
def countChar (s : String) (c : Char) : Nat :=
  s.data.countP (fun x => x = c)

/-! ## The regex scanners backing `normalizeSQL` (`struct.go` patterns). -/

/-- Scanner for the tail of a `--` line comment: `--[^\n]*` keeps the
newline (the pattern cannot match it). -/
def dropLineComment : List Char → List Char
  | [] => []
  | c :: rest => if c = '\n' then c :: rest else dropLineComment rest

/-- Model of `reLineComments.ReplaceAllString(sql, " ")` with pattern
`--[^\n]*`: each leftmost `--` comment (up to, not including, the newline)
becomes a single space. -/
def removeLineComments : Nat → List Char → List Char
  | 0, l => l
  | _ + 1, [] => []
  | fuel + 1, c :: rest =>
    match rest with
    | c2 :: rest2 =>
      if c = '-' && c2 = '-' then ' ' :: removeLineComments fuel (dropLineComment rest2)
      else c :: removeLineComments fuel rest
    | [] => [c]

/-- Search for the closing `*/` of a block comment.  RE2's `.` does not match
a newline, so the non-greedy `/\*.*?\*/` can only close before the first
newline; returns the suffix after `*/` when such a close exists. -/
def findBlockClose : List Char → Option (List Char)
  | [] => none
  | c :: rest =>
    if c = '\n' then none
    else
      match rest with
      | c2 :: rest2 => if c = '*' && c2 = '/' then some rest2 else findBlockClose rest
      | [] => none

/-- Model of `reBlockComments.ReplaceAllString(sql, " ")` with pattern
`/\*.*?\*/`: each matched (newline-free) block comment becomes a space;
an unclosed `/*` matches nothing and is kept. -/
def removeBlockComments : Nat → List Char → List Char
  | 0, l => l
  | _ + 1, [] => []
  | fuel + 1, c :: rest =>
    match rest with
    | c2 :: rest2 =>
      if c = '/' && c2 = '*' then
        match findBlockClose rest2 with
        | some after => ' ' :: removeBlockComments fuel after
        | none => c :: removeBlockComments fuel rest
      else c :: removeBlockComments fuel rest
    | [] => [c]

/-- Model of `reMultipleSpaces.ReplaceAllString(sql, " ")` with pattern
`\s+`: every maximal whitespace run becomes a single space. -/
def collapseSpaces : Nat → List Char → List Char
  | 0, l => l
  | _ + 1, [] => []
  | fuel + 1, c :: rest =>
    if isReSpace c then ' ' :: collapseSpaces fuel (rest.dropWhile isReSpace)
    else c :: collapseSpaces fuel rest

def isPunctChar (c : Char) : Bool :=
  c = '(' || c = ')' || c = ',' || c = ';'

/-- Model of `reParensAndCommas.ReplaceAllString(sql, "$1")` with pattern
`\s*([(),;])\s*`: a punctuation character together with the whitespace
immediately around it is replaced by the bare punctuation character
(leftmost, non-overlapping matches). -/
def squeezePunct : Nat → List Char → List Char
  | 0, l => l
  | _ + 1, [] => []
  | fuel + 1, c :: rest =>
    if isPunctChar c then c :: squeezePunct fuel (rest.dropWhile isReSpace)
    else if isReSpace c then
      let run := (c :: rest).takeWhile isReSpace
      let after := (c :: rest).dropWhile isReSpace
      match after with
      | p :: rest2 =>
        if isPunctChar p then p :: squeezePunct fuel (rest2.dropWhile isReSpace)
        else run ++ squeezePunct fuel after
      | [] => run
    else c :: squeezePunct fuel rest

/-- Model of `normalizeSQL` (`query_validation.go`): strip line comments,
strip block comments, collapse whitespace, remove spacing around
parentheses/commas/semicolons, then upper-case and trim. -/
def normalizeSQL (l : List Char) : List Char :=
  let s1 := removeLineComments l.length l
  let s2 := removeBlockComments s1.length s1
  let s3 := collapseSpaces s2.length s2
  let s4 := squeezePunct s3.length s3
  trimSpace (s4.map asciiUpper)

/-! ## Literal stripping (`removeStringLiterals`). -/

/-- Suffix after the first occurrence of `target`, if any. -/
def findCharSuffix (target : Char) : List Char → Option (List Char)
  | [] => none
  | c :: rest => if c = target then some rest else findCharSuffix target rest

/-- Shared scanner for the three literal-stripping regexes
`'[^']*'` / `"[^"]*"` / `\[[^\]]*\]`: each delimited span is replaced by the
empty pair of delimiters; an unclosed opener matches nothing. -/
def stripDelim (op cl : Char) : Nat → List Char → List Char
  | 0, l => l
  | _ + 1, [] => []
  | fuel + 1, c :: rest =>
    if c = op then
      match findCharSuffix cl rest with
      | some after => op :: cl :: stripDelim op cl fuel after
      | none => c :: rest
    else c :: stripDelim op cl fuel rest

/-- Model of `removeStringLiterals`: single quotes, then double quotes, then
square brackets. -/
def removeStringLiterals (l : List Char) : List Char :=
  let s1 := stripDelim '\'' '\'' l.length l
  let s2 := stripDelim '"' '"' s1.length s1
  stripDelim '[' ']' s2.length s2

/-! ## Keyword matching. -/

/-- Model of `containsKeyword`: regex `\b<kw>\b` — the keyword occurs with no
word character (`[0-9A-Za-z_]`) on either side.  All keywords on the
denylists consist solely of word characters. -/
def containsKeywordAux (kw : List Char) : Option Char → List Char → Bool
  | _, [] => false
  | prev, c :: rest =>
    (kw.isPrefixOf (c :: rest)
      && (match prev with | none => true | some p => !isWordChar p)
      && (match (c :: rest).drop kw.length with | [] => true | d :: _ => !isWordChar d))
    || containsKeywordAux kw (some c) rest

def containsKeyword (sql kw : List Char) : Bool :=
  containsKeywordAux kw none sql

/-- First keyword of the list matching as a whole word (the Go loops report
the first hit). -/
def firstKeyword (sql : List Char) (kws : List String) : Option String :=
  kws.find? (fun k => containsKeyword sql k.data)

/-- First keyword of the list matching as a plain substring
(`strings.Contains` checks). -/
def firstContains (sql : List Char) (kws : List String) : Option String :=
  kws.find? (fun k => containsSub sql k.data)

/-! ## Validation constants (`constant.go`). -/

def MaxQueryLength : Nat := 10000
def MaxSubqueryCount : Nat := 10
def MaxUnionCount : Nat := 5
def MaxParenthesesDepth : Int := 20
def MaxHexEncodingCount : Nat := 3
def MaxCharFunctionCount : Nat := 10

/-! ## Validation errors (`errors.go`), with the data `fmt.Errorf` attaches. -/

inductive VError where
  | queryEmpty
  | queryTooLong
  | onlySelectAllowed
  | commandNotAllowed (cmd : String)
  | transactionNotAllowed (cmd : String)
  | adminCommandNotAllowed (cmd : String)
  | securityCommandNotAllowed (cmd : String)
  | dangerousFunctionNotAllowed (fn : String)
  | multipleCommandsNotAllowed
  | selectIntoNotAllowed
  | tooManyUnions
  | suspiciousCharacter
  | excessiveHexEncoding
  | excessiveCharFunction
  | timeFunctionNotAllowed (fn : String)
  | tooManySubqueries
  | unbalancedParentheses
  | parenthesesTooDeep
deriving DecidableEq, Repr

/-! ## The denylists of `SQLValidator.Validate`. -/

def dangerousDML : List String := ["INSERT", "UPDATE", "DELETE", "TRUNCATE", "MERGE"]

def dangerousDDL : List String := ["DROP", "CREATE", "ALTER", "RENAME"]

def dangerousExec : List String := ["EXEC", "EXECUTE", "SP_EXECUTESQL", "XP_CMDSHELL"]

def transactionCmds : List String :=
  ["BEGIN TRANSACTION", "BEGIN TRAN", "COMMIT", "ROLLBACK", "SAVE TRANSACTION"]

def backupCmds : List String := ["BACKUP", "RESTORE", "DUMP"]

def adminCmds : List String := ["SHUTDOWN", "RECONFIGURE", "DBCC", "KILL"]

def securityCmds : List String := ["GRANT", "REVOKE", "DENY"]

def dangerousFunctions : List String :=
  ["XP_", "SP_CONFIGURE", "SP_ADDSRVROLEMEMBER", "SP_ADDLOGIN",
   "OPENROWSET", "OPENDATASOURCE", "OPENQUERY", "BULK INSERT", "BCP"]

def timingFunctions : List String := ["WAITFOR", "DELAY", "SLEEP", "BENCHMARK"]

/-! ## The helper validators of `query_validation.go`. -/

/-- Scanner of `validateMultipleStatements`: walk the raw query with
single-quote and backslash-escape tracking; a semicolon outside a string is
an error unless only whitespace (or nothing) follows it. -/
def vmsScan : List Char → Bool → Bool → Option VError
  | [], _, _ => none
  | c :: rest, inString, escapeNext =>
    if escapeNext then vmsScan rest inString false
    else if c = '\\' then vmsScan rest inString true
    else if c = '\'' then vmsScan rest (!inString) escapeNext
    else if !inString && c = ';' then
      if !rest.isEmpty && !(trimSpace rest).isEmpty then some .multipleCommandsNotAllowed
      else vmsScan rest inString escapeNext
    else vmsScan rest inString escapeNext

def validateMultipleStatements (q : List Char) : Option VError :=
  vmsScan q false false

/-- Criterion for the gap between `SELECT` and `INTO` to be fillable as
`\s+.*\s+`: it starts and ends with a `\s` character and, once the maximal
leading and trailing `\s` runs are removed, contains no newline (RE2's `.`
cannot match a newline, while `\s+` can). -/
def gapOk (gap : List Char) : Bool :=
  match gap with
  | [] => false
  | c :: _ =>
    isReSpace c
      && (match gap.getLast? with | some d => isReSpace d | none => false)
      && (((gap.dropWhile isReSpace).reverse.dropWhile isReSpace).all (fun x => x ≠ '\n'))

/-- Model of `reSelectInto.MatchString` for the pattern
`SELECT\s+.*\s+INTO\s+`. -/
def selectIntoMatch (l : List Char) : Bool :=
  let n := l.length
  (List.range n).any fun i =>
    ("SELECT".data.isPrefixOf (l.drop i))
      && ((List.range (n + 1)).any fun j =>
        decide (i + 6 < j)
          && ("INTO".data.isPrefixOf (l.drop j))
          && (match l.drop (j + 4) with | c :: _ => isReSpace c | [] => false)
          && gapOk ((l.drop (i + 6)).take (j - (i + 6))))

def validateNoIntoClause (sql : List Char) : Option VError :=
  if selectIntoMatch sql then some .selectIntoNotAllowed else none

def validateUnionUsage (sql : List Char) : Option VError :=
  if countSub sql "UNION".data > MaxUnionCount then some .tooManyUnions else none

/-- Count of `reHexPattern` (`0X[0-9A-F]+`) matches, leftmost and greedy,
as `FindAllString` produces them. -/
def isHexDigitUp (c : Char) : Bool :=
  ('0' ≤ c && c ≤ '9') || ('A' ≤ c && c ≤ 'F')

def countHexMatches : Nat → List Char → Nat
  | 0, _ => 0
  | _ + 1, [] => 0
  | fuel + 1, c :: rest =>
    match rest with
    | c2 :: c3 :: rest3 =>
      if c = '0' && c2 = 'X' && isHexDigitUp c3 then
        1 + countHexMatches fuel (rest3.dropWhile isHexDigitUp)
      else countHexMatches fuel rest
    | _ => 0

/-- Count of `reCharNCharPattern` (`(CHAR|NCHAR)\s*\(`) matches. -/
def charFnMatch (l : List Char) : Option (List Char) :=
  if "CHAR".data.isPrefixOf l then
    match (l.drop 4).dropWhile isReSpace with
    | '(' :: rest => some rest
    | _ => none
  else if "NCHAR".data.isPrefixOf l then
    match (l.drop 5).dropWhile isReSpace with
    | '(' :: rest => some rest
    | _ => none
  else none

def countCharFnMatches : Nat → List Char → Nat
  | 0, _ => 0
  | _ + 1, [] => 0
  | fuel + 1, c :: rest =>
    match charFnMatch (c :: rest) with
    | some remaining => 1 + countCharFnMatches fuel remaining
    | none => countCharFnMatches fuel rest

/-- Model of `validateEncoding`: control characters in the raw query, then
hex-literal and CHAR/NCHAR counts on the normalized text. -/
def validateEncoding (q normalized : List Char) : Option VError :=
  if q.any (fun c => c.toNat < 32 && c ≠ '\n' && c ≠ '\r' && c ≠ '\t') then
    some .suspiciousCharacter
  else if containsSub normalized "0X".data
      && (countHexMatches normalized.length normalized > MaxHexEncodingCount) then
    some .excessiveHexEncoding
  else if countCharFnMatches normalized.length normalized > MaxCharFunctionCount then
    some .excessiveCharFunction
  else none

def validateNoTimingAttacks (sql : List Char) : Option VError :=
  (firstKeyword sql timingFunctions).map .timeFunctionNotAllowed

/-- Model of the `validateParenthesesDepth` loop: returns the final depth and
the maximum depth reached. -/
def parenScan : List Char → Int → Int → Int × Int
  | [], d, m => (d, m)
  | c :: rest, d, m =>
    if c = '(' then parenScan rest (d + 1) (if d + 1 > m then d + 1 else m)
    else if c = ')' then parenScan rest (d - 1) m
    else parenScan rest d m

def validateParenthesesDepth (q : List Char) : Option VError :=
  if (parenScan q 0 0).1 ≠ 0 then some .unbalancedParentheses
  else if (parenScan q 0 0).2 > MaxParenthesesDepth then some .parenthesesTooDeep
  else none

/-! ## `SQLValidator.Validate` -/

/-- Steps 5–20 of `SQLValidator.Validate`: the denylist, structural and
resource checks applied after normalization, in source order, first
violation wins.  `q` is the raw query, `normalized` its normalized form and
`lf` the literal-free view. -/
def validateChecks (q normalized lf : List Char) : Option VError :=
  ((firstKeyword lf dangerousDML).map VError.commandNotAllowed) <|>
  ((firstKeyword lf dangerousDDL).map VError.commandNotAllowed) <|>
  ((firstKeyword lf dangerousExec).map VError.commandNotAllowed) <|>
  ((firstContains lf transactionCmds).map VError.transactionNotAllowed) <|>
  ((firstKeyword lf backupCmds).map VError.commandNotAllowed) <|>
  ((firstKeyword lf adminCmds).map VError.adminCommandNotAllowed) <|>
  ((firstKeyword lf securityCmds).map VError.securityCommandNotAllowed) <|>
  ((firstContains lf dangerousFunctions).map VError.dangerousFunctionNotAllowed) <|>
  validateMultipleStatements q <|>
  validateNoIntoClause lf <|>
  (if countSub lf ";".data > 0 then some .multipleCommandsNotAllowed else none) <|>
  validateUnionUsage lf <|>
  validateEncoding q normalized <|>
  validateNoTimingAttacks lf <|>
  (if countSub lf "SELECT".data > MaxSubqueryCount then some .tooManySubqueries else none) <|>
  validateParenthesesDepth q

/-- Model of `SQLValidator.Validate`: the twenty checks of
`query_validation.go`, in source order, short-circuiting on the first
violation.  `none` means the query passes. -/
def Validate (query : String) : Option VError :=
  if (trimSpace query.data).isEmpty then some .queryEmpty
  else if query.length > MaxQueryLength then some .queryTooLong
  else if !("SELECT".data.isPrefixOf (normalizeSQL query.data)
      || "WITH".data.isPrefixOf (normalizeSQL query.data)) then
    some .onlySelectAllowed
  else
    validateChecks query.data (normalizeSQL query.data)
      (removeStringLiterals (normalizeSQL query.data))

/-! ## Error strings (`errors.go`) and the execute-query rejection message

`VError.errString` is the `Error()` text of each validation error, including
the detail `fmt.Errorf` wrapping performed in `query_validation.go`
(`%w: %s` appends `": " ++ detail`; the counted guards append their maxima). -/

def VError.errString : VError → String
  | .queryEmpty => "empty query"
  | .queryTooLong => "query too long (maximum 10000 characters)"
  | .onlySelectAllowed => "only SELECT or WITH queries are allowed"
  | .commandNotAllowed cmd => "command not allowed: " ++ cmd
  | .transactionNotAllowed cmd => "transaction commands are not allowed: " ++ cmd
  | .adminCommandNotAllowed cmd => "administrative command not allowed: " ++ cmd
  | .securityCommandNotAllowed cmd => "security command not allowed: " ++ cmd
  | .dangerousFunctionNotAllowed fn => "dangerous function not permitted: " ++ fn
  | .multipleCommandsNotAllowed => "multiple commands are not allowed"
  | .selectIntoNotAllowed => "SELECT INTO is not allowed"
  | .tooManyUnions => "too many UNION clauses (maximum 5)"
  | .suspiciousCharacter => "suspicious control character detected"
  | .excessiveHexEncoding => "excessive use of hexadecimal encoding"
  | .excessiveCharFunction => "excessive use of CHAR/NCHAR (possible obfuscation)"
  | .timeFunctionNotAllowed fn => "time function not allowed: " ++ fn
  | .tooManySubqueries => "too many subqueries (maximum 10)"
  | .unbalancedParentheses => "unbalanced parentheses"
  | .parenthesesTooDeep => "parenthesis depth too large (maximum 20)"

/-- Message the `execute_query` tool returns to the caller when the validator
rejects (`tool_query.go`): `fmt.Errorf("%w: %v", ErrQueryNotAllowed, err)`,
whose `Error()` text is `"query not allowed: " ++ err.Error()`. -/
def executeQueryValidationMessage (e : VError) : String :=
  "query not allowed" ++ ": " ++ e.errString

/-! ## Drivers and dialects (`constant.go`, `dialect.go`). -/

def DriverSQLServer : String := "sqlserver"
def DriverPostgresSQL : String := "postgres"
def DriverMySQL : String := "mysql"
def DriverOracle : String := "godror"
def DriverSQLite : String := "sqlite3"

/-- The five dialect implementations behind the `Dialect` interface. -/
inductive DialectKind where
  | sqlserver
  | postgres
  | mysql
  | oracle
  | sqlite
deriving DecidableEq, Repr

/-- Model of `NewDialect` (`dialect.go`): select by driver string, with
PostgreSQL as the default for anything unrecognized. -/
def NewDialect (driver : String) : DialectKind :=
  if driver = DriverSQLServer then .sqlserver
  else if driver = DriverPostgresSQL then .postgres
  else if driver = DriverMySQL then .mysql
  else if driver = DriverOracle then .oracle
  else if driver = DriverSQLite then .sqlite
  else .postgres

inductive DialectFeature where
  | storedProcedures
  | functions
  | triggers
  | views
  | schemas
  | iLike
deriving DecidableEq, Repr

/-- Default `BaseDialect.SupportsFeature` (`dialect.go`): everything. -/
def BaseDialect.SupportsFeature (_ : DialectFeature) : Bool := true

/-- `PostgresDialect.SupportsFeature`: the `switch` answers true on `ILike`
and true by default. -/
def PostgresDialect.SupportsFeature (f : DialectFeature) : Bool :=
  match f with
  | .iLike => true
  | _ => true

/-- `SQLiteDialect.SupportsFeature`: no stored procedures, functions or
schemas. -/
def SQLiteDialect.SupportsFeature (f : DialectFeature) : Bool :=
  match f with
  | .storedProcedures => false
  | .functions => false
  | .schemas => false
  | _ => true

/-- Feature support, dispatched per dialect (SQL Server, MySQL and Oracle
inherit the `BaseDialect` default). -/
def Dialect.SupportsFeature : DialectKind → DialectFeature → Bool
  | .sqlserver, f => BaseDialect.SupportsFeature f
  | .postgres, f => PostgresDialect.SupportsFeature f
  | .mysql, f => BaseDialect.SupportsFeature f
  | .oracle, f => BaseDialect.SupportsFeature f
  | .sqlite, f => SQLiteDialect.SupportsFeature f

/-! ## Per-dialect placeholders, identifier normalization, pagination. -/

def SQLServerDialect.Placeholder (index : Nat) : String := "@p" ++ toString index
def PostgresDialect.Placeholder (index : Nat) : String := "$" ++ toString index
def MySQLDialect.Placeholder (_ : Nat) : String := "?"
def OracleDialect.Placeholder (index : Nat) : String := ":" ++ toString index
def SQLiteDialect.Placeholder (_ : Nat) : String := "?"

def Dialect.Placeholder : DialectKind → Nat → String
  | .sqlserver, i => SQLServerDialect.Placeholder i
  | .postgres, i => PostgresDialect.Placeholder i
  | .mysql, i => MySQLDialect.Placeholder i
  | .oracle, i => OracleDialect.Placeholder i
  | .sqlite, i => SQLiteDialect.Placeholder i

def asciiUpperStr (s : String) : String := String.mk (s.data.map asciiUpper)

/-- `NormalizeIdentifier`: the `BaseDialect` default is the identity; Oracle
overrides with `strings.ToUpper`. -/
def Dialect.NormalizeIdentifier : DialectKind → String → String
  | .oracle, name => asciiUpperStr name
  | _, name => name

/-- `SQLServerDialect.PaginationClause`: always emits ORDER BY, substituting
`(SELECT NULL)` when no sort column is given. -/
def SQLServerDialect.PaginationClause (limit offset : Int) (orderBy : String) : String :=
  let ob := if orderBy = "" then "(SELECT NULL)" else orderBy
  "ORDER BY " ++ ob ++ " OFFSET " ++ toString offset ++ " ROWS FETCH NEXT " ++ toString limit ++ " ROWS ONLY"

/-- `OracleDialect.PaginationClause`: OFFSET/FETCH, with ORDER BY prefixed
only when a sort column is given. -/
def OracleDialect.PaginationClause (limit offset : Int) (orderBy : String) : String :=
  let pagination := "OFFSET " ++ toString offset ++ " ROWS FETCH NEXT " ++ toString limit ++ " ROWS ONLY"
  if orderBy ≠ "" then "ORDER BY " ++ orderBy ++ " " ++ pagination else pagination

/-- `PostgresDialect.PaginationClause`: LIMIT/OFFSET, optional ORDER BY. -/
def PostgresDialect.PaginationClause (limit offset : Int) (orderBy : String) : String :=
  let pagination := "LIMIT " ++ toString limit ++ " OFFSET " ++ toString offset
  if orderBy ≠ "" then "ORDER BY " ++ orderBy ++ " " ++ pagination else pagination

/-- `MySQLDialect.PaginationClause`: LIMIT/OFFSET, optional ORDER BY. -/
def MySQLDialect.PaginationClause (limit offset : Int) (orderBy : String) : String :=
  let pagination := "LIMIT " ++ toString limit ++ " OFFSET " ++ toString offset
  if orderBy ≠ "" then "ORDER BY " ++ orderBy ++ " " ++ pagination else pagination

/-- `SQLiteDialect.PaginationClause`: LIMIT/OFFSET, optional ORDER BY. -/
def SQLiteDialect.PaginationClause (limit offset : Int) (orderBy : String) : String :=
  let pagination := "LIMIT " ++ toString limit ++ " OFFSET " ++ toString offset
  if orderBy ≠ "" then "ORDER BY " ++ orderBy ++ " " ++ pagination else pagination

def Dialect.PaginationClause : DialectKind → Int → Int → String → String
  | .sqlserver, l, o, ob => SQLServerDialect.PaginationClause l o ob
  | .postgres, l, o, ob => PostgresDialect.PaginationClause l o ob
  | .mysql, l, o, ob => MySQLDialect.PaginationClause l o ob
  | .oracle, l, o, ob => OracleDialect.PaginationClause l o ob
  | .sqlite, l, o, ob => SQLiteDialect.PaginationClause l o ob

/-! ## Go `fmt.Sprintf` on string arguments

The format strings reaching `fmt.Sprintf` in the query builder contain only
`%s` verbs and `%%` escapes.  When a format holds fewer verbs than supplied
operands, Go appends `%!(EXTRA string=v, ...)`; a missing operand renders as
`%!s(MISSING)`. -/

def goFormatExtras (args : List String) : List Char :=
  ("%!(EXTRA " ++ String.intercalate ", " (args.map (fun a => "string=" ++ a)) ++ ")").data

def goFormat : Nat → List Char → List String → List Char
  | 0, f, _ => f
  | _ + 1, [], [] => []
  | _ + 1, [], args => goFormatExtras args
  | fuel + 1, c :: rest, args =>
    if c = '%' then
      match rest with
      | v :: rest2 =>
        if v = '%' then '%' :: goFormat fuel rest2 args
        else if v = 's' then
          match args with
          | a :: args2 => a.data ++ goFormat fuel rest2 args2
          | [] => "%!s(MISSING)".data ++ goFormat fuel rest2 []
        else c :: goFormat fuel rest args
      | [] => [c]
    else c :: goFormat fuel rest args

def goSprintf (format : String) (args : List String) : String :=
  String.mk (goFormat (format.data.length + 1) format.data args)

/-! ## Metadata query bundles (`dialect.go` structs)

Fields keep the Go zero value `""` when a dialect leaves them unset. -/

structure TableMetadataSQL where
  ListTables : String := ""
  SchemaFilter : String := ""
  NameFilter : String := ""
  OrderBy : String := ""

structure ProcedureMetadataSQL where
  ListProcedures : String := ""
  SchemaFilter : String := ""
  NameFilter : String := ""
  OrderBy : String := ""

structure FunctionMetadataSQL where
  ListFunctions : String := ""
  TypeFilterScalar : String := ""
  TypeFilterTable : String := ""
  TypeFilterAll : String := ""
  SchemaFilter : String := ""
  NameFilter : String := ""
  OrderBy : String := ""

structure ViewMetadataSQL where
  ListViews : String := ""
  SchemaFilter : String := ""
  NameFilter : String := ""
  OrderBy : String := ""

structure TriggerMetadataSQL where
  ListTriggers : String := ""
  SchemaFilter : String := ""
  TableFilter : String := ""
  NameFilter : String := ""
  DisabledFilter : String := ""
  OrderBy : String := ""

def SQLServerDialect.TableMetadata : TableMetadataSQL where
  ListTables := "\n\t\t\tSELECT\n\t\t\t\tTABLE_SCHEMA,\n\t\t\t\tTABLE_NAME,\n\t\t\t\tTABLE_TYPE\n\t\t\tFROM INFORMATION_SCHEMA.TABLES\n\t\t\tWHERE TABLE_TYPE = 'BASE TABLE'"
  SchemaFilter := " AND TABLE_SCHEMA = %s"
  NameFilter := " AND TABLE_NAME LIKE %s"
  OrderBy := " ORDER BY TABLE_SCHEMA, TABLE_NAME"

def SQLServerDialect.ProcedureMetadata : ProcedureMetadataSQL where
  ListProcedures := "\n\t\t\tSELECT\n\t\t\t\ts.name AS routine_schema,\n\t\t\t\to.name AS routine_name,\n\t\t\t\to.create_date AS created,\n\t\t\t\to.modify_date AS last_altered\n\t\t\tFROM sys.objects o\n\t\t\tINNER JOIN sys.schemas s ON o.schema_id = s.schema_id\n\t\t\tWHERE o.type = 'P' AND o.is_ms_shipped = 0"
  SchemaFilter := " AND s.name = %s"
  NameFilter := " AND o.name LIKE %s"
  OrderBy := " ORDER BY s.name, o.name"

def SQLServerDialect.FunctionMetadata : FunctionMetadataSQL where
  ListFunctions := "\n\t\t\tSELECT\n\t\t\t\ts.name AS routine_schema,\n\t\t\t\to.name AS routine_name,\n\t\t\t\to.type_desc AS function_type,\n\t\t\t\to.create_date AS created,\n\t\t\t\to.modify_date AS last_altered\n\t\t\tFROM sys.objects o\n\t\t\tINNER JOIN sys.schemas s ON o.schema_id = s.schema_id\n\t\t\tWHERE o.is_ms_shipped = 0"
  TypeFilterScalar := " AND o.type = 'FN'"
  TypeFilterTable := " AND o.type IN ('IF', 'TF')"
  TypeFilterAll := " AND o.type IN ('FN', 'IF', 'TF')"
  SchemaFilter := " AND s.name = %s"
  NameFilter := " AND o.name LIKE %s"
  OrderBy := " ORDER BY s.name, o.name"

def SQLServerDialect.ViewMetadata : ViewMetadataSQL where
  ListViews := "\n\t\t\tSELECT\n\t\t\t\ts.name AS view_schema,\n\t\t\t\tv.name AS view_name,\n\t\t\t\tv.create_date AS created,\n\t\t\t\tv.modify_date AS last_altered\n\t\t\tFROM sys.views v\n\t\t\tINNER JOIN sys.schemas s ON v.schema_id = s.schema_id\n\t\t\tWHERE v.is_ms_shipped = 0"
  SchemaFilter := " AND s.name = %s"
  NameFilter := " AND v.name LIKE %s"
  OrderBy := " ORDER BY s.name, v.name"

def SQLServerDialect.TriggerMetadata : TriggerMetadataSQL where
  ListTriggers := "\n\t\t\tSELECT\n\t\t\t\ts.name AS schema_name,\n\t\t\t\tt.name AS trigger_name,\n\t\t\t\tOBJECT_NAME(tr.parent_id) AS table_name,\n\t\t\t\ttr.is_disabled,\n\t\t\t\ttr.create_date,\n\t\t\t\ttr.modify_date\n\t\t\tFROM sys.triggers tr\n\t\t\tINNER JOIN sys.objects t ON tr.object_id = t.object_id\n\t\t\tINNER JOIN sys.schemas s ON t.schema_id = s.schema_id\n\t\t\tWHERE 1=1"
  SchemaFilter := " AND s.name = %s"
  TableFilter := " AND OBJECT_NAME(tr.parent_id) = %s"
  NameFilter := " AND t.name LIKE %s"
  DisabledFilter := " AND tr.is_disabled = 0"
  OrderBy := " ORDER BY s.name, OBJECT_NAME(tr.parent_id), t.name"

def PostgresDialect.TableMetadata : TableMetadataSQL where
  ListTables := "\n\t\t\tSELECT\n\t\t\t\ttable_schema,\n\t\t\t\ttable_name,\n\t\t\t\ttable_type\n\t\t\tFROM information_schema.tables\n\t\t\tWHERE table_type = 'BASE TABLE'\n\t\t\t\tAND table_schema NOT IN ('pg_catalog', 'information_schema')"
  SchemaFilter := " AND table_schema = %s"
  NameFilter := " AND table_name ILIKE %s"
  OrderBy := " ORDER BY table_schema, table_name"

def PostgresDialect.ProcedureMetadata : ProcedureMetadataSQL where
  ListProcedures := "\n\t\t\tSELECT\n\t\t\t\troutine_schema,\n\t\t\t\troutine_name,\n\t\t\t\tcreated::timestamp AS created,\n\t\t\t\tcreated::timestamp AS last_altered\n\t\t\tFROM information_schema.routines\n\t\t\tWHERE routine_type = 'PROCEDURE'\n\t\t\t\tAND routine_schema NOT IN ('pg_catalog', 'information_schema')"
  SchemaFilter := " AND routine_schema = %s"
  NameFilter := " AND routine_name ILIKE %s"
  OrderBy := " ORDER BY routine_schema, routine_name"

def PostgresDialect.FunctionMetadata : FunctionMetadataSQL where
  ListFunctions := "\n\t\t\tSELECT\n\t\t\t\tn.nspname AS routine_schema,\n\t\t\t\tp.proname AS routine_name,\n\t\t\t\tCASE WHEN p.proretset THEN 'TABLE' ELSE 'SCALAR' END AS function_type,\n\t\t\t\tNULL::timestamp AS created,\n\t\t\t\tNULL::timestamp AS last_altered\n\t\t\tFROM pg_proc p\n\t\t\tJOIN pg_namespace n ON p.pronamespace = n.oid\n\t\t\tWHERE n.nspname NOT IN ('pg_catalog', 'information_schema')\n\t\t\t\tAND prokind = 'f'"
  TypeFilterScalar := ""
  TypeFilterTable := ""
  TypeFilterAll := ""
  SchemaFilter := " AND n.nspname = %s"
  NameFilter := " AND p.proname ILIKE %s"
  OrderBy := " ORDER BY n.nspname, p.proname"

def PostgresDialect.ViewMetadata : ViewMetadataSQL where
  ListViews := "\n\t\t\tSELECT\n\t\t\t\ttable_schema as view_schema,\n\t\t\t\ttable_name as view_name,\n\t\t\t\tNULL::timestamp as created,\n\t\t\t\tNULL::timestamp as last_altered\n\t\t\tFROM information_schema.views\n\t\t\tWHERE table_schema NOT IN ('pg_catalog', 'information_schema')"
  SchemaFilter := " AND table_schema = %s"
  NameFilter := " AND table_name ILIKE %s"
  OrderBy := " ORDER BY table_schema, table_name"

def PostgresDialect.TriggerMetadata : TriggerMetadataSQL where
  ListTriggers := "\n\t\t\tSELECT\n\t\t\t\tn.nspname AS schema_name,\n\t\t\t\tt.tgname AS trigger_name,\n\t\t\t\tc.relname AS table_name,\n\t\t\t\tNOT t.tgenabled::boolean AS is_disabled,\n\t\t\t\tNULL::timestamp AS create_date,\n\t\t\t\tNULL::timestamp AS modify_date\n\t\t\tFROM pg_trigger t\n\t\t\tJOIN pg_class c ON t.tgrelid = c.oid\n\t\t\tJOIN pg_namespace n ON c.relnamespace = n.oid\n\t\t\tWHERE NOT t.tgisinternal\n\t\t\t\tAND n.nspname NOT IN ('pg_catalog', 'information_schema')"
  SchemaFilter := " AND n.nspname = %s"
  TableFilter := " AND c.relname = %s"
  NameFilter := " AND t.tgname ILIKE %s"
  DisabledFilter := ""
  OrderBy := " ORDER BY n.nspname, c.relname, t.tgname"

def MySQLDialect.TableMetadata : TableMetadataSQL where
  ListTables := "\n\t\t\tSELECT\n\t\t\t\tTABLE_SCHEMA,\n\t\t\t\tTABLE_NAME,\n\t\t\t\tTABLE_TYPE\n\t\t\tFROM INFORMATION_SCHEMA.TABLES\n\t\t\tWHERE TABLE_TYPE = 'BASE TABLE'\n\t\t\t\tAND TABLE_SCHEMA NOT IN ('mysql', 'information_schema', 'performance_schema', 'sys')"
  SchemaFilter := " AND TABLE_SCHEMA = ?"
  NameFilter := " AND TABLE_NAME LIKE ?"
  OrderBy := " ORDER BY TABLE_SCHEMA, TABLE_NAME"

def MySQLDialect.ProcedureMetadata : ProcedureMetadataSQL where
  ListProcedures := "\n\t\t\tSELECT\n\t\t\t\tROUTINE_SCHEMA as routine_schema,\n\t\t\t\tROUTINE_NAME as routine_name,\n\t\t\t\tCREATED as created,\n\t\t\t\tLAST_ALTERED as last_altered\n\t\t\tFROM INFORMATION_SCHEMA.ROUTINES\n\t\t\tWHERE ROUTINE_TYPE = 'PROCEDURE'\n\t\t\t\tAND ROUTINE_SCHEMA NOT IN ('mysql', 'information_schema', 'performance_schema', 'sys')"
  SchemaFilter := " AND ROUTINE_SCHEMA = ?"
  NameFilter := " AND ROUTINE_NAME LIKE ?"
  OrderBy := " ORDER BY ROUTINE_SCHEMA, ROUTINE_NAME"

def MySQLDialect.FunctionMetadata : FunctionMetadataSQL where
  ListFunctions := "\n\t\t\tSELECT\n\t\t\t\tROUTINE_SCHEMA as routine_schema,\n\t\t\t\tROUTINE_NAME as routine_name,\n\t\t\t\t'FUNCTION' as function_type,\n\t\t\t\tCREATED as created,\n\t\t\t\tLAST_ALTERED as last_altered\n\t\t\tFROM INFORMATION_SCHEMA.ROUTINES\n\t\t\tWHERE ROUTINE_TYPE = 'FUNCTION'\n\t\t\t\tAND ROUTINE_SCHEMA NOT IN ('mysql', 'information_schema', 'performance_schema', 'sys')"
  TypeFilterScalar := ""
  TypeFilterTable := ""
  TypeFilterAll := ""
  SchemaFilter := " AND ROUTINE_SCHEMA = ?"
  NameFilter := " AND ROUTINE_NAME LIKE ?"
  OrderBy := " ORDER BY ROUTINE_SCHEMA, ROUTINE_NAME"

def MySQLDialect.ViewMetadata : ViewMetadataSQL where
  ListViews := "\n\t\t\tSELECT\n\t\t\t\tTABLE_SCHEMA as view_schema,\n\t\t\t\tTABLE_NAME as view_name,\n\t\t\t\tNULL as created,\n\t\t\t\tNULL as last_altered\n\t\t\tFROM INFORMATION_SCHEMA.VIEWS\n\t\t\tWHERE TABLE_SCHEMA NOT IN ('mysql', 'information_schema', 'performance_schema', 'sys')"
  SchemaFilter := " AND TABLE_SCHEMA = ?"
  NameFilter := " AND TABLE_NAME LIKE ?"
  OrderBy := " ORDER BY TABLE_SCHEMA, TABLE_NAME"

def MySQLDialect.TriggerMetadata : TriggerMetadataSQL where
  ListTriggers := "\n\t\t\tSELECT\n\t\t\t\tTRIGGER_SCHEMA as schema_name,\n\t\t\t\tTRIGGER_NAME as trigger_name,\n\t\t\t\tEVENT_OBJECT_TABLE as table_name,\n\t\t\t\t0 as is_disabled,\n\t\t\t\tCREATED as create_date,\n\t\t\t\tNULL as modify_date\n\t\t\tFROM INFORMATION_SCHEMA.TRIGGERS\n\t\t\tWHERE TRIGGER_SCHEMA NOT IN ('mysql', 'information_schema', 'performance_schema', 'sys')"
  SchemaFilter := " AND TRIGGER_SCHEMA = ?"
  TableFilter := " AND EVENT_OBJECT_TABLE = ?"
  NameFilter := " AND TRIGGER_NAME LIKE ?"
  DisabledFilter := ""
  OrderBy := " ORDER BY TRIGGER_SCHEMA, EVENT_OBJECT_TABLE, TRIGGER_NAME"

def OracleDialect.TableMetadata : TableMetadataSQL where
  ListTables := "\n\t\t\tSELECT\n\t\t\t\towner as table_schema,\n\t\t\t\ttable_name,\n\t\t\t\t'BASE TABLE' as table_type\n\t\t\tFROM all_tables\n\t\t\tWHERE owner NOT IN ('SYS', 'SYSTEM', 'OUTLN', 'XDB', 'WMSYS', 'CTXSYS', 'MDSYS', 'OLAPSYS')"
  SchemaFilter := " AND owner = %s"
  NameFilter := " AND table_name LIKE %s"
  OrderBy := " ORDER BY owner, table_name"

def OracleDialect.ProcedureMetadata : ProcedureMetadataSQL where
  ListProcedures := "\n\t\t\tSELECT\n\t\t\t\towner as routine_schema,\n\t\t\t\tobject_name as routine_name,\n\t\t\t\tcreated,\n\t\t\t\tlast_ddl_time as last_altered\n\t\t\tFROM all_procedures\n\t\t\tWHERE object_type = 'PROCEDURE'\n\t\t\t\tAND owner NOT IN ('SYS', 'SYSTEM')"
  SchemaFilter := " AND owner = %s"
  NameFilter := " AND object_name LIKE %s"
  OrderBy := " ORDER BY owner, object_name"

def OracleDialect.FunctionMetadata : FunctionMetadataSQL where
  ListFunctions := "\n\t\t\tSELECT\n\t\t\t\towner as routine_schema,\n\t\t\t\tobject_name as routine_name,\n\t\t\t\t'FUNCTION' as function_type,\n\t\t\t\tcreated,\n\t\t\t\tlast_ddl_time as last_altered\n\t\t\tFROM all_objects\n\t\t\tWHERE object_type = 'FUNCTION'\n\t\t\t\tAND owner NOT IN ('SYS', 'SYSTEM')"
  TypeFilterScalar := ""
  TypeFilterTable := ""
  TypeFilterAll := ""
  SchemaFilter := " AND owner = %s"
  NameFilter := " AND object_name LIKE %s"
  OrderBy := " ORDER BY owner, object_name"

def OracleDialect.ViewMetadata : ViewMetadataSQL where
  ListViews := "\n\t\t\tSELECT\n\t\t\t\towner as view_schema,\n\t\t\t\tview_name,\n\t\t\t\tNULL as created,\n\t\t\t\tNULL as last_altered\n\t\t\tFROM all_views\n\t\t\tWHERE owner NOT IN ('SYS', 'SYSTEM')"
  SchemaFilter := " AND owner = %s"
  NameFilter := " AND view_name LIKE %s"
  OrderBy := " ORDER BY owner, view_name"

def OracleDialect.TriggerMetadata : TriggerMetadataSQL where
  ListTriggers := "\n\t\t\tSELECT\n\t\t\t\towner as schema_name,\n\t\t\t\ttrigger_name,\n\t\t\t\ttable_name,\n\t\t\t\tCASE WHEN status = 'DISABLED' THEN 1 ELSE 0 END as is_disabled,\n\t\t\t\tNULL as create_date,\n\t\t\t\tNULL as modify_date\n\t\t\tFROM all_triggers\n\t\t\tWHERE owner NOT IN ('SYS', 'SYSTEM')"
  SchemaFilter := " AND owner = %s"
  TableFilter := " AND table_name = %s"
  NameFilter := " AND trigger_name LIKE %s"
  DisabledFilter := " AND status = 'ENABLED'"
  OrderBy := " ORDER BY owner, table_name, trigger_name"

def SQLiteDialect.TableMetadata : TableMetadataSQL where
  ListTables := "\n\t\t\tSELECT\n\t\t\t\t'main' as table_schema,\n\t\t\t\tname as table_name,\n\t\t\t\t'BASE TABLE' as table_type\n\t\t\tFROM sqlite_master\n\t\t\tWHERE type = 'table'\n\t\t\t\tAND name NOT LIKE 'sqlite_%'"
  SchemaFilter := ""
  NameFilter := " AND name LIKE ?"
  OrderBy := " ORDER BY name"

def SQLiteDialect.ProcedureMetadata : ProcedureMetadataSQL where
  ListProcedures := ""
  SchemaFilter := ""
  NameFilter := ""
  OrderBy := ""

def SQLiteDialect.FunctionMetadata : FunctionMetadataSQL where
  ListFunctions := ""
  TypeFilterScalar := ""
  TypeFilterTable := ""
  TypeFilterAll := ""
  SchemaFilter := ""
  NameFilter := ""
  OrderBy := ""

def SQLiteDialect.ViewMetadata : ViewMetadataSQL where
  ListViews := "\n\t\t\tSELECT\n\t\t\t\t'main' as view_schema,\n\t\t\t\tname as view_name,\n\t\t\t\tNULL as created,\n\t\t\t\tNULL as last_altered\n\t\t\tFROM sqlite_master\n\t\t\tWHERE type = 'view'"
  SchemaFilter := ""
  NameFilter := " AND name LIKE ?"
  OrderBy := " ORDER BY name"

def SQLiteDialect.TriggerMetadata : TriggerMetadataSQL where
  ListTriggers := "\n\t\t\tSELECT\n\t\t\t\t'main' as schema_name,\n\t\t\t\tname as trigger_name,\n\t\t\t\ttbl_name as table_name,\n\t\t\t\t0 as is_disabled,\n\t\t\t\tNULL as create_date,\n\t\t\t\tNULL as modify_date\n\t\t\tFROM sqlite_master\n\t\t\tWHERE type = 'trigger'"
  SchemaFilter := ""
  TableFilter := " AND tbl_name = ?"
  NameFilter := " AND name LIKE ?"
  DisabledFilter := ""
  OrderBy := " ORDER BY tbl_name, name"

/-- Metadata dispatch per dialect. -/
def Dialect.TableMetadata : DialectKind → TableMetadataSQL
  | .sqlserver => SQLServerDialect.TableMetadata
  | .postgres => PostgresDialect.TableMetadata
  | .mysql => MySQLDialect.TableMetadata
  | .oracle => OracleDialect.TableMetadata
  | .sqlite => SQLiteDialect.TableMetadata

def Dialect.ProcedureMetadata : DialectKind → ProcedureMetadataSQL
  | .sqlserver => SQLServerDialect.ProcedureMetadata
  | .postgres => PostgresDialect.ProcedureMetadata
  | .mysql => MySQLDialect.ProcedureMetadata
  | .oracle => OracleDialect.ProcedureMetadata
  | .sqlite => SQLiteDialect.ProcedureMetadata

def Dialect.FunctionMetadata : DialectKind → FunctionMetadataSQL
  | .sqlserver => SQLServerDialect.FunctionMetadata
  | .postgres => PostgresDialect.FunctionMetadata
  | .mysql => MySQLDialect.FunctionMetadata
  | .oracle => OracleDialect.FunctionMetadata
  | .sqlite => SQLiteDialect.FunctionMetadata

def Dialect.ViewMetadata : DialectKind → ViewMetadataSQL
  | .sqlserver => SQLServerDialect.ViewMetadata
  | .postgres => PostgresDialect.ViewMetadata
  | .mysql => MySQLDialect.ViewMetadata
  | .oracle => OracleDialect.ViewMetadata
  | .sqlite => SQLiteDialect.ViewMetadata

def Dialect.TriggerMetadata : DialectKind → TriggerMetadataSQL
  | .sqlserver => SQLServerDialect.TriggerMetadata
  | .postgres => PostgresDialect.TriggerMetadata
  | .mysql => MySQLDialect.TriggerMetadata
  | .oracle => OracleDialect.TriggerMetadata
  | .sqlite => SQLiteDialect.TriggerMetadata

/-! ## The QueryBuilder (`query_builder.go`, dialect-based version). -/

structure QueryBuilder where
  driver : String
  dialect : DialectKind

/-- Model of `NewQueryBuilder`: resolve the dialect from the driver string
once. -/
def NewQueryBuilder (driver : String) : QueryBuilder :=
  ⟨driver, NewDialect driver⟩

def QueryBuilder.Placeholder (qb : QueryBuilder) (index : Nat) : String :=
  Dialect.Placeholder qb.dialect index

def QueryBuilder.SupportsStoredProcedures (qb : QueryBuilder) : Bool :=
  Dialect.SupportsFeature qb.dialect .storedProcedures

def QueryBuilder.SupportsFunctions (qb : QueryBuilder) : Bool :=
  Dialect.SupportsFeature qb.dialect .functions

/-- Model of `strings.TrimPrefix`. -/
def trimPrefixStr (s pre : String) : String :=
  if pre.data.isPrefixOf s.data then String.mk (s.data.drop pre.data.length) else s

def trimSpaceStr (s : String) : String := String.mk (trimSpace s.data)

/-- Model of `QueryBuilder.appendPaginationClause`: extract the bare order-by
columns, then append the driver's pagination idiom (the `fmt.Sprintf` calls of
the source are rendered as the equal concatenations). -/
def QueryBuilder.appendPaginationClause (qb : QueryBuilder)
    (query orderByClause : String) (limit offset : Int) : String :=
  let c1 := trimSpaceStr orderByClause
  let c2 := trimPrefixStr c1 " "
  let c3 := trimPrefixStr c2 "ORDER BY "
  let c4 := trimPrefixStr c3 "order by "
  let orderByColumns := trimSpaceStr c4
  if qb.driver = DriverSQLServer || qb.driver = DriverOracle then
    let cols := if orderByColumns = "" then "(SELECT NULL)" else orderByColumns
    query ++ " ORDER BY " ++ cols ++ " OFFSET " ++ toString offset
      ++ " ROWS FETCH NEXT " ++ toString limit ++ " ROWS ONLY"
  else
    (if orderByColumns ≠ "" then query ++ " ORDER BY " ++ orderByColumns else query)
      ++ " LIMIT " ++ toString limit ++ " OFFSET " ++ toString offset

/-- Model of `QueryBuilder.ListTablesQuery`: conditional schema and name
filters (`fmt.Sprintf(filterFragment, placeholder)`), then pagination. -/
def QueryBuilder.ListTablesQuery (qb : QueryBuilder) (schemaFilter nameFilter : String)
    (limit offset : Int) : String × List String :=
  let meta := Dialect.TableMetadata qb.dialect
  let useSchema := schemaFilter ≠ "" && meta.SchemaFilter ≠ ""
  let query1 := if useSchema then meta.ListTables ++ goSprintf meta.SchemaFilter [qb.Placeholder 1]
    else meta.ListTables
  let args1 : List String := if useSchema then [Dialect.NormalizeIdentifier qb.dialect schemaFilter]
    else []
  let argIndex := if useSchema then 2 else 1
  let useName := nameFilter ≠ "" && meta.NameFilter ≠ ""
  let query2 := if useName then query1 ++ goSprintf meta.NameFilter [qb.Placeholder argIndex]
    else query1
  let args2 := if useName then
      args1 ++ ["%" ++ Dialect.NormalizeIdentifier qb.dialect nameFilter ++ "%"]
    else args1
  (qb.appendPaginationClause query2 meta.OrderBy limit offset, args2)

/-- Model of `QueryBuilder.ListProceduresQuery`: returns `("", [])` when the
dialect does not support stored procedures. -/
def QueryBuilder.ListProceduresQuery (qb : QueryBuilder) (schemaFilter nameFilter : String)
    (limit offset : Int) : String × List String :=
  if !qb.SupportsStoredProcedures then ("", [])
  else
    let meta := Dialect.ProcedureMetadata qb.dialect
    let useSchema := schemaFilter ≠ "" && meta.SchemaFilter ≠ ""
    let query1 := if useSchema then meta.ListProcedures ++ goSprintf meta.SchemaFilter [qb.Placeholder 1]
      else meta.ListProcedures
    let args1 : List String := if useSchema then [Dialect.NormalizeIdentifier qb.dialect schemaFilter]
      else []
    let argIndex := if useSchema then 2 else 1
    let useName := nameFilter ≠ "" && meta.NameFilter ≠ ""
    let query2 := if useName then query1 ++ goSprintf meta.NameFilter [qb.Placeholder argIndex]
      else query1
    let args2 := if useName then
        args1 ++ ["%" ++ Dialect.NormalizeIdentifier qb.dialect nameFilter ++ "%"]
      else args1
    (qb.appendPaginationClause query2 meta.OrderBy limit offset, args2)

/-- Model of `QueryBuilder.ListFunctionsQuery`: type filter, then schema and
name filters, then pagination; `("", [])` when functions are unsupported. -/
def QueryBuilder.ListFunctionsQuery (qb : QueryBuilder)
    (schemaFilter nameFilter funcType : String) (limit offset : Int) : String × List String :=
  if !qb.SupportsFunctions then ("", [])
  else
    let meta := Dialect.FunctionMetadata qb.dialect
    let query0 := meta.ListFunctions ++
      (if funcType = "scalar" then meta.TypeFilterScalar
       else if funcType = "table" then meta.TypeFilterTable
       else meta.TypeFilterAll)
    let useSchema := schemaFilter ≠ "" && meta.SchemaFilter ≠ ""
    let query1 := if useSchema then query0 ++ goSprintf meta.SchemaFilter [qb.Placeholder 1]
      else query0
    let args1 : List String := if useSchema then [Dialect.NormalizeIdentifier qb.dialect schemaFilter]
      else []
    let argIndex := if useSchema then 2 else 1
    let useName := nameFilter ≠ "" && meta.NameFilter ≠ ""
    let query2 := if useName then query1 ++ goSprintf meta.NameFilter [qb.Placeholder argIndex]
      else query1
    let args2 := if useName then
        args1 ++ ["%" ++ Dialect.NormalizeIdentifier qb.dialect nameFilter ++ "%"]
      else args1
    (qb.appendPaginationClause query2 meta.OrderBy limit offset, args2)

/-- Model of `QueryBuilder.ListViewsQuery`. -/
def QueryBuilder.ListViewsQuery (qb : QueryBuilder) (schemaFilter nameFilter : String)
    (limit offset : Int) : String × List String :=
  let meta := Dialect.ViewMetadata qb.dialect
  let useSchema := schemaFilter ≠ "" && meta.SchemaFilter ≠ ""
  let query1 := if useSchema then meta.ListViews ++ goSprintf meta.SchemaFilter [qb.Placeholder 1]
    else meta.ListViews
  let args1 : List String := if useSchema then [Dialect.NormalizeIdentifier qb.dialect schemaFilter]
    else []
  let argIndex := if useSchema then 2 else 1
  let useName := nameFilter ≠ "" && meta.NameFilter ≠ ""
  let query2 := if useName then query1 ++ goSprintf meta.NameFilter [qb.Placeholder argIndex]
    else query1
  let args2 := if useName then
      args1 ++ ["%" ++ Dialect.NormalizeIdentifier qb.dialect nameFilter ++ "%"]
    else args1
  (qb.appendPaginationClause query2 meta.OrderBy limit offset, args2)

/-- Model of `QueryBuilder.ListTriggersQuery`: schema, table and name filters
in order (the placeholder index advances with each one taken), the disabled
filter, then pagination. -/
def QueryBuilder.ListTriggersQuery (qb : QueryBuilder)
    (schemaFilter tableName nameFilter : String) (includeDisabled : Bool)
    (limit offset : Int) : String × List String :=
  let meta := Dialect.TriggerMetadata qb.dialect
  let useSchema := schemaFilter ≠ "" && meta.SchemaFilter ≠ ""
  let query1 := if useSchema then meta.ListTriggers ++ goSprintf meta.SchemaFilter [qb.Placeholder 1]
    else meta.ListTriggers
  let args1 : List String := if useSchema then [Dialect.NormalizeIdentifier qb.dialect schemaFilter]
    else []
  let idx1 := if useSchema then 2 else 1
  let useTable := tableName ≠ "" && meta.TableFilter ≠ ""
  let query2 := if useTable then query1 ++ goSprintf meta.TableFilter [qb.Placeholder idx1]
    else query1
  let args2 := if useTable then args1 ++ [Dialect.NormalizeIdentifier qb.dialect tableName]
    else args1
  let idx2 := if useTable then idx1 + 1 else idx1
  let useName := nameFilter ≠ "" && meta.NameFilter ≠ ""
  let query3 := if useName then query2 ++ goSprintf meta.NameFilter [qb.Placeholder idx2]
    else query2
  let args3 := if useName then
      args2 ++ ["%" ++ Dialect.NormalizeIdentifier qb.dialect nameFilter ++ "%"]
    else args2
  let query4 := if !includeDisabled && meta.DisabledFilter ≠ "" then query3 ++ meta.DisabledFilter
    else query3
  (qb.appendPaginationClause query4 meta.OrderBy limit offset, args3)

def buildSQLServerSearchQueryTemplate : String :=
  "\n\t\tSELECT DISTINCT\n\t\t\ts.name AS schema_name,\n\t\t\to.name AS object_name,\n\t\t\to.type_desc AS object_type,\n\t\t\to.create_date,\n\t\t\to.modify_date,\n\t\t\tCASE WHEN m.definition IS NOT NULL THEN 1 ELSE 0 END AS has_code\n\t\tFROM sys.objects o\n\t\tINNER JOIN sys.schemas s ON o.schema_id = s.schema_id\n\t\tLEFT JOIN sys.sql_modules m ON o.object_id = m.object_id\n\t\tWHERE o.type IN (%s)\n\t\t  AND (o.name LIKE '%%' + @p1 + '%%' %s)\n\t\tORDER BY s.name, o.name"

def buildPostgresSearchQueryTemplate : String :=
  "\n\t\tSELECT\n\t\t\ttable_schema AS schema_name,\n\t\t\ttable_name AS object_name,\n\t\t\ttable_type AS object_type,\n\t\t\tNULL AS create_date,\n\t\t\tNULL AS modify_date,\n\t\t\tCASE WHEN view_definition IS NOT NULL THEN 1 ELSE 0 END AS has_code\n\t\tFROM information_schema.tables\n\t\tLEFT JOIN information_schema.views USING (table_schema, table_name)\n\t\tWHERE table_schema NOT IN ('pg_catalog', 'information_schema')\n\t\t  AND (table_name LIKE '%%' || $1 || '%%' %s)\n\t\t  %s\n\t\tORDER BY table_schema, table_name"

def buildMySQLSearchQueryTemplate : String :=
  "\n\t\tSELECT\n\t\t\tTABLE_SCHEMA AS schema_name,\n\t\t\tTABLE_NAME AS object_name,\n\t\t\tTABLE_TYPE AS object_type,\n\t\t\tCREATE_TIME AS create_date,\n\t\t\tUPDATE_TIME AS modify_date,\n\t\t\t0 AS has_code\n\t\tFROM INFORMATION_SCHEMA.TABLES\n\t\tWHERE TABLE_SCHEMA NOT IN ('mysql', 'information_schema', 'performance_schema', 'sys')\n\t\t  AND TABLE_NAME LIKE CONCAT('%%', ?, '%%')\n\t\t  %s\n\t\tORDER BY TABLE_SCHEMA, TABLE_NAME"

def buildOracleSearchQueryTemplate : String :=
  "\n\t\tSELECT\n\t\t\towner AS schema_name,\n\t\t\tobject_name,\n\t\t\tobject_type,\n\t\t\tcreated AS create_date,\n\t\t\tlast_ddl_time AS modify_date,\n\t\t\t0 AS has_code\n\t\tFROM all_objects\n\t\tWHERE owner NOT IN ('SYS', 'SYSTEM')\n\t\t  AND object_name LIKE '%%' || :1 || '%%'\n\t\t  %s\n\t\tORDER BY owner, object_name"

def buildSQLiteSearchQueryTemplate : String :=
  "\n\t\tSELECT\n\t\t\t'' AS schema_name,\n\t\t\tname AS object_name,\n\t\t\ttype AS object_type,\n\t\t\tNULL AS create_date,\n\t\t\tNULL AS modify_date,\n\t\t\tCASE WHEN sql IS NOT NULL THEN 1 ELSE 0 END AS has_code\n\t\tFROM sqlite_master\n\t\tWHERE name NOT LIKE 'sqlite_%%'\n\t\t  AND (name LIKE '%%' || ? || '%%' %s)\n\t\t  %s\n\t\tORDER BY name"

/-- Type-code map of `buildSQLServerSearchQuery` (a closed internal map,
never caller text). -/
def sqlServerTypeMap (ot : String) : Option String :=
  if ot = "table" then some "U"
  else if ot = "view" then some "V"
  else if ot = "procedure" then some "P"
  else if ot = "function" then some "FN"
  else none

/-- Model of `buildSQLServerSearchQuery`.  When no requested type matches,
the source ranges over the whole map — Go map iteration order is
unspecified, so the model fixes the map literal's source order; no theorem
below depends on that branch. -/
def buildSQLServerSearchQuery (searchTerm : String) (searchInCode : Bool)
    (objectTypes : List String) : String × List String :=
  let sqlTypes := objectTypes.filterMap sqlServerTypeMap
  let sqlTypes := if sqlTypes.isEmpty then ["U", "V", "P", "FN"] else sqlTypes
  let typeInClause := "'" ++ String.intercalate "', '" sqlTypes ++ "'"
  let searchInCodeClause :=
    if searchInCode then "OR (m.definition IS NOT NULL AND m.definition LIKE '%' + @p1 + '%')"
    else ""
  (goSprintf buildSQLServerSearchQueryTemplate [typeInClause, searchInCodeClause], [searchTerm])

/-- Model of `buildPostgresSearchQuery`. -/
def buildPostgresSearchQuery (searchTerm : String) (searchInCode : Bool)
    (objectTypes : List String) : String × List String :=
  let types := objectTypes.filterMap (fun ot =>
    if ot = "table" then some "'BASE TABLE'"
    else if ot = "view" then some "'VIEW'"
    else none)
  let objectTypeFilter :=
    if objectTypes.length > 0 && types.length > 0 then
      " AND table_type IN (" ++ String.intercalate "," types ++ ")"
    else ""
  let searchInCodeClause :=
    if searchInCode then " OR view_definition LIKE '%' || $1 || '%'" else ""
  (goSprintf buildPostgresSearchQueryTemplate [searchInCodeClause, objectTypeFilter], [searchTerm])

/-- Model of `buildMySQLSearchQuery`. -/
def buildMySQLSearchQuery (searchTerm : String) (objectTypes : List String) :
    String × List String :=
  let types := objectTypes.filterMap (fun ot =>
    if ot = "table" then some "'BASE TABLE'"
    else if ot = "view" then some "'VIEW'"
    else none)
  let objectTypeFilter :=
    if objectTypes.length > 0 && types.length > 0 then
      " AND TABLE_TYPE IN (" ++ String.intercalate "," types ++ ")"
    else ""
  (goSprintf buildMySQLSearchQueryTemplate [objectTypeFilter], [searchTerm])

/-- Model of `buildOracleSearchQuery` (the search term is upper-cased). -/
def buildOracleSearchQuery (searchTerm : String) (objectTypes : List String) :
    String × List String :=
  let types := objectTypes.filterMap (fun ot =>
    if ot = "table" then some "'TABLE'"
    else if ot = "view" then some "'VIEW'"
    else if ot = "procedure" then some "'PROCEDURE'"
    else if ot = "function" then some "'FUNCTION'"
    else none)
  let objectTypeFilter :=
    if objectTypes.length > 0 && types.length > 0 then
      " AND object_type IN (" ++ String.intercalate "," types ++ ")"
    else ""
  (goSprintf buildOracleSearchQueryTemplate [objectTypeFilter], [asciiUpperStr searchTerm])

/-- Model of `buildSQLiteSearchQuery` (two bound copies of the term when
searching in code). -/
def buildSQLiteSearchQuery (searchTerm : String) (searchInCode : Bool)
    (objectTypes : List String) : String × List String :=
  let types := objectTypes.filterMap (fun ot =>
    if ot = "table" then some "'table'"
    else if ot = "view" then some "'view'"
    else if ot = "trigger" then some "'trigger'"
    else none)
  let objectTypeFilter :=
    if objectTypes.length > 0 && types.length > 0 then
      " AND type IN (" ++ String.intercalate "," types ++ ")"
    else ""
  let searchInCodeClause :=
    if searchInCode then " OR sql LIKE '%' || ? || '%'" else ""
  let query := goSprintf buildSQLiteSearchQueryTemplate [searchInCodeClause, objectTypeFilter]
  if searchInCode then (query, [searchTerm, searchTerm]) else (query, [searchTerm])

/-- Model of `QueryBuilder.SearchObjectsQuery`: dispatches on the raw driver
string; the `switch` has no default case, so an unrecognized driver falls
through to the zero values `("", nil)`. -/
def QueryBuilder.SearchObjectsQuery (qb : QueryBuilder) (searchTerm : String)
    (searchInCode : Bool) (objectTypes : List String) : String × List String :=
  if qb.driver = DriverSQLServer then buildSQLServerSearchQuery searchTerm searchInCode objectTypes
  else if qb.driver = DriverPostgresSQL then buildPostgresSearchQuery searchTerm searchInCode objectTypes
  else if qb.driver = DriverMySQL then buildMySQLSearchQuery searchTerm objectTypes
  else if qb.driver = DriverOracle then buildOracleSearchQuery searchTerm objectTypes
  else if qb.driver = DriverSQLite then buildSQLiteSearchQuery searchTerm searchInCode objectTypes
  else ("", [])

/-! ## Identifier validation (`util.go`, `struct.go`). -/

/-- Character class of `reValidIdentifier` = `^[a-zA-Z0-9_#@$]+$`. -/
def isIdentChar (c : Char) : Bool :=
  ('a' ≤ c && c ≤ 'z') || ('A' ≤ c && c ≤ 'Z') || ('0' ≤ c && c ≤ '9')
    || c = '_' || c = '#' || c = '@' || c = '$'

/-- Anchored match of `reValidIdentifier`: one or more identifier characters
and nothing else. -/
def reValidIdentifierMatch (l : List Char) : Bool :=
  !l.isEmpty && l.all isIdentChar

/-- Model of `isValidIdentifier` (`util.go`): reject the empty name and any
name of length ≥ 128, then require the identifier grammar.  (Go measures
`len(name)` in bytes; on the ASCII strings the grammar admits, byte and
character counts agree, and any non-ASCII name fails the grammar under both
measures.) -/
def isValidIdentifier (name : String) : Bool :=
  if name = "" || name.length ≥ 128 then false
  else reValidIdentifierMatch name.data

/-! ## Concrete queries used in the testable properties. -/

/-- Spec example with six SELECTs joined by five UNIONs. -/
def fiveUnionQuery : String :=
  "SELECT * FROM t WHERE 1=1 UNION SELECT * FROM t UNION SELECT * FROM t UNION SELECT * FROM t UNION SELECT * FROM t UNION SELECT * FROM t"

/-- One more UNION appended to `fiveUnionQuery`. -/
def sixUnionQuery : String :=
  fiveUnionQuery ++ " UNION SELECT * FROM t"

/-! ## Helper lemmas. -/

/-- An `Option` alternative is `none` only when both sides are. -/
theorem orElseNeNone {α : Type} (a b : Option α) (h : b ≠ none) : (a <|> b) ≠ none := by
  cases a with
  | none => simpa using h
  | some v => simp

/-- Final depth of the parenthesis scan: starting depth plus open-parens
minus close-parens, literals and comments included. -/
theorem parenScan_fst (l : List Char) (d m : Int) :
    (parenScan l d m).1 =
      d + (l.countP (fun c => c = '(') : Int) - (l.countP (fun c => c = ')') : Int) := by
  induction l generalizing d m with
  | nil => simp [parenScan]
  | cons c rest ih =>
    by_cases h1 : c = '('
    · simp [parenScan, h1, ih, List.countP_cons]
      omega
    · by_cases h2 : c = ')'
      · simp [parenScan, h1, h2, ih, List.countP_cons]
        omega
      · simp [parenScan, h1, h2, ih, List.countP_cons]

/-- The raw-text parenthesis check cannot pass when the totals differ. -/
theorem validateParenthesesDepth_ne_none (q : List Char)
    (h : q.countP (fun c => c = '(') ≠ q.countP (fun c => c = ')')) :
    validateParenthesesDepth q ≠ none := by
  unfold validateParenthesesDepth
  split
  · simp
  · next hdep =>
    exfalso
    apply h
    have hfst := parenScan_fst q 0 0
    simp only [not_not] at hdep
    rw [hdep] at hfst
    omega

/-- The check chain cannot pass when the raw parenthesis totals differ. -/
theorem validateChecks_ne_none (q normalized lf : List Char)
    (h : q.countP (fun c => c = '(') ≠ q.countP (fun c => c = ')')) :
    validateChecks q normalized lf ≠ none := by
  unfold validateChecks
  apply orElseNeNone; apply orElseNeNone; apply orElseNeNone; apply orElseNeNone
  apply orElseNeNone; apply orElseNeNone; apply orElseNeNone; apply orElseNeNone
  apply orElseNeNone; apply orElseNeNone; apply orElseNeNone; apply orElseNeNone
  apply orElseNeNone; apply orElseNeNone; apply orElseNeNone
  exact validateParenthesesDepth_ne_none q h

/-! ## Claim theorems. -/

/-- C1 — the claim: for every DriverType and every filtered listing
operation, placeholders and positional arguments match in number and order,
in lockstep with omitted filters.  The code violates this: the MySQL and
SQLite filter fragments contain a literal `?` and no `%s` verb, yet the
builder passes them through `fmt.Sprintf(fragment, placeholder)`, so Go
appends `%!(EXTRA string=?)`.  On the failing input — SQLite
`ListTablesQuery` with name filter "users" — the emitted SQL carries two `?`
characters (one of them inside the garbage marker) against a single bound
argument. -/
theorem c1_sqlite_placeholder_argument_mismatch :
    countSub ((NewQueryBuilder DriverSQLite).ListTablesQuery "" "users" 10 0).1.data "?".data = 2
      ∧ ((NewQueryBuilder DriverSQLite).ListTablesQuery "" "users" 10 0).2.length = 1
      ∧ containsSub ((NewQueryBuilder DriverSQLite).ListTablesQuery "" "users" 10 0).1.data
          "%!(EXTRA string=?)".data = true := by
  decide

/-- C2 — the claim: a query whose only semicolon is the trailing terminator
is not rejected.  The code violates this: step 13
(`validateMultipleStatements`) indeed tolerates the trailing semicolon, but
step 15 then rejects any semicolon left in the literal-free normalized text,
so `"SELECT * FROM t;"` is refused with the multiple-commands error. -/
theorem c2_trailing_semicolon_rejected :
    validateMultipleStatements "SELECT * FROM t;".data = none
      ∧ Validate "SELECT * FROM t;" = some VError.multipleCommandsNotAllowed := by
  decide

/-- C3 — counterexample: the Oracle dialect's `PaginationClause` with an
empty order-by emits a bare OFFSET/FETCH clause; it does not substitute the
claimed `(SELECT NULL)` placeholder and emits no ORDER BY at all. -/
theorem c3_oracle_empty_orderby_counterexample :
    OracleDialect.PaginationClause 10 20 "" = "OFFSET 20 ROWS FETCH NEXT 10 ROWS ONLY"
      ∧ OracleDialect.PaginationClause 10 20 ""
          ≠ "ORDER BY (SELECT NULL) OFFSET 20 ROWS FETCH NEXT 10 ROWS ONLY"
      ∧ containsSub (OracleDialect.PaginationClause 10 20 "").data "ORDER BY".data = false := by
  decide

/-- C3 — amended: only SQL Server substitutes `(SELECT NULL)` and always
emits ORDER BY; Oracle prefixes ORDER BY only when a sort column is given
and otherwise emits the bare OFFSET/FETCH clause; PostgreSQL, MySQL and
SQLite emit LIMIT/OFFSET with ORDER BY only when a sort column is given. -/
theorem c3_pagination_clause_amended (limit offset : Int) (orderBy : String) :
    SQLServerDialect.PaginationClause limit offset orderBy
        = "ORDER BY " ++ (if orderBy = "" then "(SELECT NULL)" else orderBy)
          ++ " OFFSET " ++ toString offset ++ " ROWS FETCH NEXT " ++ toString limit ++ " ROWS ONLY"
      ∧ OracleDialect.PaginationClause limit offset orderBy
        = (if orderBy = "" then
            "OFFSET " ++ toString offset ++ " ROWS FETCH NEXT " ++ toString limit ++ " ROWS ONLY"
          else "ORDER BY " ++ orderBy ++ " "
            ++ ("OFFSET " ++ toString offset ++ " ROWS FETCH NEXT " ++ toString limit ++ " ROWS ONLY"))
      ∧ PostgresDialect.PaginationClause limit offset orderBy
        = (if orderBy = "" then "LIMIT " ++ toString limit ++ " OFFSET " ++ toString offset
          else "ORDER BY " ++ orderBy ++ " " ++ ("LIMIT " ++ toString limit ++ " OFFSET " ++ toString offset))
      ∧ MySQLDialect.PaginationClause limit offset orderBy
        = PostgresDialect.PaginationClause limit offset orderBy
      ∧ SQLiteDialect.PaginationClause limit offset orderBy
        = PostgresDialect.PaginationClause limit offset orderBy := by
  by_cases h : orderBy = "" <;>
    simp [SQLServerDialect.PaginationClause, OracleDialect.PaginationClause,
      PostgresDialect.PaginationClause, MySQLDialect.PaginationClause,
      SQLiteDialect.PaginationClause, h]

/-- C4 — counterexample: for the stacked query the validator reports the
DROP command, and the execute-query tool's caller-facing message is
`"query not allowed: command not allowed: DROP"` — the specific triggering
rule is echoed back, not the bare generic outcome. -/
theorem c4_specific_reason_echoed_counterexample :
    Validate "SELECT * FROM t; DROP TABLE t" = some (VError.commandNotAllowed "DROP")
      ∧ executeQueryValidationMessage (VError.commandNotAllowed "DROP")
          = "query not allowed: command not allowed: DROP"
      ∧ executeQueryValidationMessage (VError.commandNotAllowed "DROP") ≠ "query not allowed" := by
  decide

/-- C4 — amended: on any validator rejection the execute-query tool returns
the generic prefix with the specific rule appended —
`"query not allowed: " ++ reason` — (and also logs it internally); the
triggering rule is therefore echoed to the caller. -/
theorem c4_rejection_message_amended (e : VError) :
    executeQueryValidationMessage e = "query not allowed: " ++ e.errString := by
  rfl

/-- C5 — the claim: the validator passes the three benign example queries
(upper-case, lower-case, and dangerous text confined to a string literal),
rejects the stacked-statement example, and rejects any input longer than the
fixed maximum length. -/
theorem c5_validator_examples :
    Validate "SELECT * FROM t" = none
      ∧ Validate "select * from t" = none
      ∧ Validate "SELECT * FROM t WHERE name = 'a; DROP TABLE t'" = none
      ∧ Validate "SELECT * FROM t; DROP TABLE t" ≠ none
      ∧ (∀ q : String, q.length > MaxQueryLength → Validate q ≠ none) := by
  refine ⟨by decide, by decide, by decide, by decide, ?_⟩
  intro q h
  unfold Validate
  split <;> simp

/-- C5 — witness: a 50001-character input exceeds the 10000-character
maximum and is rejected. -/
theorem c5_validator_examples_witness :
    Validate (String.mk (List.replicate 50001 'A')) ≠ none := by
  apply c5_validator_examples.2.2.2.2
  have h : (String.mk (List.replicate 50001 'A')).length = 50001 := by
    show (List.replicate 50001 'A').length = 50001
    exact List.length_replicate _ _
  rw [h]
  norm_num [MaxQueryLength]

/-- C6 — counterexample: the spec's six-SELECT query contains exactly five
UNION occurrences, the guard rejects only counts strictly above five, and
the whole validator accepts the query. -/
theorem c6_five_unions_pass_counterexample :
    countSub (removeStringLiterals (normalizeSQL fiveUnionQuery.data)) "UNION".data = 5
      ∧ Validate fiveUnionQuery = none := by
  constructor
  · decide
  · decide

/-- C6 — amended: the union-count guard rejects a query only when its
literal-free text contains more than `MaxUnionCount = 5` UNION occurrences;
the example query with five UNIONs passes validation, and appending a sixth
UNION makes the guard reject. -/
theorem c6_union_guard_amended :
    (∀ lf : List Char, validateUnionUsage lf = none ↔ countSub lf "UNION".data ≤ MaxUnionCount)
      ∧ Validate sixUnionQuery = some VError.tooManyUnions := by
  constructor
  · intro lf
    unfold validateUnionUsage
    generalize countSub lf "UNION".data = n
    split
    · next h => simp_all [MaxUnionCount]
    · next h => simp_all [MaxUnionCount]
  · decide

/-- C7 — the claim: among the five dialects `SupportsFeature` answers false
exactly for SQLite on StoredProcedures, Functions and Schemas, and building
a procedure listing against SQLite yields an empty SQL string and empty
argument list instead of an error. -/
theorem c7_feature_gating :
    (∀ (d : DialectKind) (f : DialectFeature),
      Dialect.SupportsFeature d f = false ↔
        (d = DialectKind.sqlite ∧ (f = DialectFeature.storedProcedures
          ∨ f = DialectFeature.functions ∨ f = DialectFeature.schemas)))
      ∧ (∀ (schemaFilter nameFilter : String) (limit offset : Int),
        (NewQueryBuilder DriverSQLite).ListProceduresQuery schemaFilter nameFilter limit offset
          = ("", [])) := by
  constructor
  · intro d f
    cases d <;> cases f <;>
      simp [Dialect.SupportsFeature, BaseDialect.SupportsFeature,
        PostgresDialect.SupportsFeature, SQLiteDialect.SupportsFeature]
  · intro s n l o
    rfl

/-- C8 — the claim: `isValidIdentifier` accepts exactly the non-empty
strings of at most 127 characters drawn from ASCII letters, digits,
underscore, `#`, `@` and `$`; it accepts the three examples and rejects the
empty string, every 128-character name, and every name containing a space
or a semicolon. -/
theorem c8_identifier_grammar :
    (∀ s : String, isValidIdentifier s = true ↔
      (1 ≤ s.length ∧ s.length ≤ 127 ∧ s.data.all isIdentChar = true))
      ∧ isValidIdentifier "order_items" = true
      ∧ isValidIdentifier "#temp" = true
      ∧ isValidIdentifier "@var" = true
      ∧ isValidIdentifier "" = false
      ∧ (∀ s : String, s.length = 128 → isValidIdentifier s = false)
      ∧ (∀ s : String, ' ' ∈ s.data → isValidIdentifier s = false)
      ∧ (∀ s : String, ';' ∈ s.data → isValidIdentifier s = false) := by
  have hlen : ∀ s : String, s.length = s.data.length := fun _ => rfl
  refine ⟨?_, by decide, by decide, by decide, by decide, ?_, ?_, ?_⟩
  · intro s
    unfold isValidIdentifier reValidIdentifierMatch
    split
    · next h =>
      simp only [Bool.or_eq_true, decide_eq_true_eq] at h
      simp only [Bool.false_eq_true, false_iff, not_and]
      intro h1 h2
      rcases h with h | h
      · subst h
        simp at h1
      · rw [hlen] at *
        omega
    · next h =>
      simp only [Bool.or_eq_true, decide_eq_true_eq, not_or] at h
      obtain ⟨hne, hlt⟩ := h
      rw [hlen] at *
      constructor
      · intro hb
        simp only [Bool.and_eq_true, Bool.not_eq_true'] at hb
        obtain ⟨hempty, hall⟩ := hb
        refine ⟨?_, by omega, hall⟩
        cases hd : s.data with
        | nil => rw [hd] at hempty; simp at hempty
        | cons a l => simp
      · rintro ⟨h1, _, h3⟩
        simp only [Bool.and_eq_true, Bool.not_eq_true']
        refine ⟨?_, h3⟩
        cases hd : s.data with
        | nil => rw [hd] at h1; simp at h1
        | cons a l => simp
  · intro s h
    unfold isValidIdentifier
    have h128 : 128 ≤ s.length := by omega
    simp [h128]
  · intro s hmem
    unfold isValidIdentifier
    split
    · rfl
    · have hall : s.data.all isIdentChar = false := by
        by_contra hc
        rw [Bool.not_eq_false, List.all_eq_true] at hc
        have := hc ' ' hmem
        simp [isIdentChar] at this
      simp [reValidIdentifierMatch, hall]
  · intro s hmem
    unfold isValidIdentifier
    split
    · rfl
    · have hall : s.data.all isIdentChar = false := by
        by_contra hc
        rw [Bool.not_eq_false, List.all_eq_true] at hc
        have := hc ';' hmem
        simp [isIdentChar] at this
      simp [reValidIdentifierMatch, hall]

/-- C8 — witness: the grammar theorem applied at concrete inputs — a name
with a space, a name with a semicolon, and a 128-character name are all
rejected. -/
theorem c8_identifier_grammar_witness :
    isValidIdentifier "a b" = false ∧ isValidIdentifier "a;b" = false
      ∧ isValidIdentifier (String.mk (List.replicate 128 'a')) = false :=
  ⟨c8_identifier_grammar.2.2.2.2.2.2.1 "a b" (by decide),
   c8_identifier_grammar.2.2.2.2.2.2.2 "a;b" (by decide),
   c8_identifier_grammar.2.2.2.2.2.1 (String.mk (List.replicate 128 'a')) (by decide)⟩

/-- C9 — counterexample: for the unrecognized driver "mongodb" the dialect
does fall back to PostgreSQL, but `SearchObjectsQuery` — which switches on
the raw driver string with no default — returns an empty query and empty
argument list instead of the PostgreSQL-syntax search query. -/
theorem c9_search_objects_counterexample :
    NewDialect "mongodb" = DialectKind.postgres
      ∧ (NewQueryBuilder "mongodb").SearchObjectsQuery "x" false [] = ("", [])
      ∧ (NewQueryBuilder "mongodb").SearchObjectsQuery "x" false []
          ≠ (NewQueryBuilder DriverPostgresSQL).SearchObjectsQuery "x" false [] := by
  decide

/-- C9 — amended: for every unrecognized driver string `NewDialect` silently
returns the PostgreSQL dialect, and every dialect-driven listing operation
builds byte-identical SQL and arguments to the postgres driver; only
`SearchObjectsQuery`, which dispatches on the raw driver string, instead
returns an empty query with no arguments. -/
theorem c9_unknown_driver_amended (driver : String)
    (h1 : driver ≠ DriverSQLServer) (h2 : driver ≠ DriverPostgresSQL)
    (h3 : driver ≠ DriverMySQL) (h4 : driver ≠ DriverOracle) (h5 : driver ≠ DriverSQLite) :
    NewDialect driver = DialectKind.postgres
      ∧ (∀ s n l o, (NewQueryBuilder driver).ListTablesQuery s n l o
          = (NewQueryBuilder DriverPostgresSQL).ListTablesQuery s n l o)
      ∧ (∀ s n l o, (NewQueryBuilder driver).ListProceduresQuery s n l o
          = (NewQueryBuilder DriverPostgresSQL).ListProceduresQuery s n l o)
      ∧ (∀ s n t l o, (NewQueryBuilder driver).ListFunctionsQuery s n t l o
          = (NewQueryBuilder DriverPostgresSQL).ListFunctionsQuery s n t l o)
      ∧ (∀ s n l o, (NewQueryBuilder driver).ListViewsQuery s n l o
          = (NewQueryBuilder DriverPostgresSQL).ListViewsQuery s n l o)
      ∧ (∀ s t n d l o, (NewQueryBuilder driver).ListTriggersQuery s t n d l o
          = (NewQueryBuilder DriverPostgresSQL).ListTriggersQuery s t n d l o)
      ∧ (∀ st sic ot, (NewQueryBuilder driver).SearchObjectsQuery st sic ot = ("", [])) := by
  have hd : NewDialect driver = DialectKind.postgres := by
    simp [NewDialect, h1, h2, h3, h4, h5]
  have hpg : NewDialect DriverPostgresSQL = DialectKind.postgres := by decide
  have e1 : DriverPostgresSQL ≠ DriverSQLServer := by decide
  have e2 : DriverPostgresSQL ≠ DriverOracle := by decide
  refine ⟨hd, ?_, ?_, ?_, ?_, ?_, ?_⟩
  · intro s n l o
    simp [QueryBuilder.ListTablesQuery, NewQueryBuilder, hd, hpg,
      QueryBuilder.appendPaginationClause, QueryBuilder.Placeholder, h1, h4, e1, e2]
  · intro s n l o
    simp [QueryBuilder.ListProceduresQuery, NewQueryBuilder, hd, hpg,
      QueryBuilder.SupportsStoredProcedures,
      QueryBuilder.appendPaginationClause, QueryBuilder.Placeholder, h1, h4, e1, e2]
  · intro s n t l o
    simp [QueryBuilder.ListFunctionsQuery, NewQueryBuilder, hd, hpg,
      QueryBuilder.SupportsFunctions,
      QueryBuilder.appendPaginationClause, QueryBuilder.Placeholder, h1, h4, e1, e2]
  · intro s n l o
    simp [QueryBuilder.ListViewsQuery, NewQueryBuilder, hd, hpg,
      QueryBuilder.appendPaginationClause, QueryBuilder.Placeholder, h1, h4, e1, e2]
  · intro s t n d l o
    simp [QueryBuilder.ListTriggersQuery, NewQueryBuilder, hd, hpg,
      QueryBuilder.appendPaginationClause, QueryBuilder.Placeholder, h1, h4, e1, e2]
  · intro st sic ot
    simp [QueryBuilder.SearchObjectsQuery, NewQueryBuilder, h1, h2, h3, h4, h5]

/-- C9 — witness: the amended theorem applied at the unrecognized driver
"mongodb". -/
theorem c9_unknown_driver_amended_witness :
    NewDialect "mongodb" = DialectKind.postgres
      ∧ (NewQueryBuilder "mongodb").ListTablesQuery "s" "n" 10 0
          = (NewQueryBuilder DriverPostgresSQL).ListTablesQuery "s" "n" 10 0
      ∧ (NewQueryBuilder "mongodb").SearchObjectsQuery "x" true ["table"] = ("", []) :=
  ⟨(c9_unknown_driver_amended "mongodb" (by decide) (by decide) (by decide) (by decide)
      (by decide)).1,
   (c9_unknown_driver_amended "mongodb" (by decide) (by decide) (by decide) (by decide)
      (by decide)).2.1 "s" "n" 10 0,
   (c9_unknown_driver_amended "mongodb" (by decide) (by decide) (by decide) (by decide)
      (by decide)).2.2.2.2.2.2 "x" true ["table"]⟩

/-- C10 — the claim: the parentheses check scans the raw query text, so any
query whose raw totals of `(` and `)` differ cannot pass validation — even
when the imbalance sits inside a string literal (`"SELECT '('"`), and even
inside a comment that normalization strips (`"SELECT 1 --("` is rejected as
unbalanced although its normalized form has no parenthesis at all). -/
theorem c10_paren_balance_raw_text :
    (∀ q : String, countChar q '(' ≠ countChar q ')' → Validate q ≠ none)
      ∧ Validate "SELECT '('" = some VError.unbalancedParentheses
      ∧ Validate "SELECT 1 --(" = some VError.unbalancedParentheses := by
  refine ⟨?_, by decide, by decide⟩
  intro q h
  unfold Validate
  split
  · simp
  · split
    · simp
    · split
      · simp
      · exact validateChecks_ne_none _ _ _ (by simpa [countChar] using h)

/-- C10 — witness: the single character `(` has unequal totals and is
rejected. -/
theorem c10_paren_balance_raw_text_witness : Validate "(" ≠ none := by
  apply c10_paren_balance_raw_text.1
  decide

end DbMcp
